import Mathlib

/-!
Shallow embedding of `src/client/cros/crash/crasher/crasher.cc`, a deliberate-crash
test fixture for a crash-reporting test suite.  The program prints its pid, optionally
handles `--nocrash` (exit 0) or `--sendpid <path>` (send one zero byte over a Unix
datagram socket), and otherwise prints "Crashing as requested." and calls `recbomb(16)`.

The operating-system calls `socket`, `connect` and `sendmsg` are modelled by an
environment record `SysEnv` that fixes their results; all observable behavior
(diagnostic lines on stderr, datagrams transmitted, file descriptors closed, final
outcome) is collected in a trace.
-/

/-- Results the operating system gives to the three system calls made by `SendPid`,
together with the `strerror(errno)` texts on failure.  `socketFd` is the return
value of `socket(AF_UNIX, SOCK_DGRAM, 0)`: `-1` means failure, anything else is
the opened descriptor. -/
structure SysEnv where
  socketFd : Int
  connectOk : Bool
  sendOk : Bool
  socketErr : String
  connectErr : String
  sendErr : String
deriving DecidableEq, Repr

/-- Final outcome of the process: a normal `exit(code)`, or entering the recursive
fault generator `recbomb` with the given starting depth (after which the process
terminates abnormally). -/
inductive Outcome where
  | exited (code : Nat)
  | crashed (depth : Nat)
deriving DecidableEq, Repr

/-- The bytes of a C string (argv strings contain no NUL byte). -/
def strBytes (s : String) : List Nat := s.data.map Char.toNat

/-- Size of the `sun_path` field of `sockaddr_un` on Linux. -/
def sunPathSize : Nat := 108

/-- C `strncpy` viewed on the source side: the `n` bytes it writes into the
destination, namely the bytes of `src` up to its NUL terminator (modelled as the
end of the list or an explicit zero byte), padded with zero bytes up to `n`. -/
def strncpyBytes : List Nat → Nat → List Nat
  | _, 0 => []
  | [], n => List.replicate n 0
  | b :: rest, n + 1 =>
    if b = 0 then List.replicate (n + 1) 0 else b :: strncpyBytes rest n

/-- `strncpy(dest, src, n)`: the first `n` bytes of `dest` are overwritten with
`strncpyBytes src n`; the rest of `dest` is untouched. -/
def strncpyInto (dest src : List Nat) (n : Nat) : List Nat :=
  strncpyBytes src n ++ dest.drop n

/-- The `sun_path` buffer of the `sockaddr_un` built by `SendPid`:
`sockaddr_un address = \x7b AF_UNIX \x7d;` zero-initializes all 108 bytes beyond the
family field, then `strncpy(address.sun_path, socket_path, sizeof(address.sun_path) - 1)`
writes the first 107 bytes. -/
def sunPath (src : List Nat) : List Nat :=
  strncpyInto (List.replicate sunPathSize 0) src (sunPathSize - 1)

/-- Observable effects of one call to `SendPid`. `output` are the stderr lines it
prints, `sent` the datagram payloads transmitted, `closes` the descriptors closed
by the `Socket` destructor on the way out, `addr` the `sun_path` buffer passed to
`connect` (when `connect` was reached), `ok` the boolean return value. -/
structure SendPidResult where
  ok : Bool
  output : List String
  sent : List (List Nat)
  closes : List Int
  addr : Option (List Nat)
deriving DecidableEq, Repr

/-- `bool SendPid(const char *socket_path)` from crasher.cc.  Creates an
`AF_UNIX`/`SOCK_DGRAM` socket (RAII struct `Socket`, whose destructor closes `fd`
iff `fd != -1`), connects it to `socket_path`, and sends a single `'\0'` byte via
`sendmsg`.  Each failure prints one line `"<call>() failed: " ++ strerror(errno)`
and returns `false`; success returns `true`. -/
def SendPid (socket_path : String) (env : SysEnv) : SendPidResult :=
  let fd := env.socketFd
  let destructorCloses : List Int := if fd ≠ -1 then [fd] else []
  if fd = -1 then
    { ok := false
      output := ["socket() failed: " ++ env.socketErr]
      sent := []
      closes := destructorCloses
      addr := none }
  else
    let address := sunPath (strBytes socket_path)
    if env.connectOk = false then
      { ok := false
        output := ["connect() failed: " ++ env.connectErr]
        sent := []
        closes := destructorCloses
        addr := some address }
    else if env.sendOk = false then
      { ok := false
        output := ["sendmsg() failed: " ++ env.sendErr]
        sent := []
        closes := destructorCloses
        addr := some address }
    else
      { ok := true
        output := []
        sent := [[0]]
        closes := destructorCloses
        addr := some address }

/-- The line `cerr << "pid=" << getpid() << '\n'` prints. -/
def pidLine (pid : Nat) : String := "pid=" ++ toString pid

/-- Whether `PrepareBelow` called `exit(0)` or returned to `main`. -/
inductive PrepExit where
  | exited0
  | returned
deriving DecidableEq, Repr

/-- Observable effects of one call to `PrepareBelow`. -/
structure PrepTrace where
  output : List String
  sent : List (List Nat)
  closes : List Int
  result : PrepExit
deriving DecidableEq, Repr

/-- `void PrepareBelow(int argc, char *argv[])` from crasher.cc.  `argv` is the
full argument vector (so `argc = argv.length`).  Prints the pid line, handles
`--nocrash` (argc == 2) and `--sendpid` (argc == 3), and otherwise falls through
to print "Crashing as requested." and return. -/
def PrepareBelow (argv : List String) (pid : Nat) (env : SysEnv) : PrepTrace :=
  let pl := pidLine pid
  if argv.length = 2 ∧ argv.getD 1 "" = "--nocrash" then
    { output := [pl, "Doing normal exit"], sent := [], closes := [], result := .exited0 }
  else if argv.length = 3 ∧ argv.getD 1 "" = "--sendpid" then
    let r := SendPid (argv.getD 2 "") env
    if r.ok then
      { output := [pl] ++ r.output ++ ["Crashing as requested."]
        sent := r.sent, closes := r.closes, result := .returned }
    else
      { output := [pl] ++ r.output
        sent := r.sent, closes := r.closes, result := .exited0 }
  else
    { output := [pl, "Crashing as requested."], sent := [], closes := [], result := .returned }

/-- Full observable trace of one run of the program. -/
structure Trace where
  output : List String
  sent : List (List Nat)
  closes : List Int
  outcome : Outcome
deriving DecidableEq, Repr

/-- `int main(int argc, char *argv[])` from crasher.cc: run `PrepareBelow`; if it
returns (rather than exiting), call `recbomb(16)`, which makes the process
terminate abnormally. -/
def runMain (argv : List String) (pid : Nat) (env : SysEnv) : Trace :=
  let p := PrepareBelow argv pid env
  match p.result with
  | .exited0 => { output := p.output, sent := p.sent, closes := p.closes, outcome := .exited 0 }
  | .returned => { output := p.output, sent := p.sent, closes := p.closes, outcome := .crashed 16 }

/-- Modelled from the spec: `int recbomb(int n)` is only declared in crasher.cc;
its definition lives outside the repository sources available here.  The spec says
the generator calls itself a fixed number of times in a simple countdown from a
fixed starting depth to zero.  `recbombFrames n` is the list of countdown values
at which a stack frame is created. -/
def recbombFrames : Nat → List Nat
  | 0 => []
  | n + 1 => (n + 1) :: recbombFrames n

/-! ### Helper lemmas about the diagnostic lines -/

theorem data_append (a b : String) : (a ++ b).data = a.data ++ b.data := by
  cases a
  cases b
  rfl

theorem head_of_append (p s : String) (c : Char) (h : p.data.head? = some c) :
    (p ++ s).data.head? = some c := by
  rw [data_append]
  cases hp : p.data with
  | nil => rw [hp] at h; cases h
  | cons a rest =>
    rw [hp] at h
    simp only [List.head?] at h
    simp [List.cons_append, List.head?, h]

theorem append_ne_of_head (p e t : String) (c d : Char)
    (hp : p.data.head? = some c) (ht : t.data.head? = some d) (h : c ≠ d) :
    p ++ e ≠ t := by
  intro hEq
  have h1 : (p ++ e).data.head? = some c := head_of_append p e c hp
  rw [hEq, ht] at h1
  exact h (Option.some.inj h1).symm

theorem pidLine_head (pid : Nat) : (pidLine pid).data.head? = some 'p' :=
  head_of_append "pid=" (toString pid) 'p' rfl

theorem socket_line_ne_pidLine (e : String) (pid : Nat) :
    "socket() failed: " ++ e ≠ pidLine pid :=
  append_ne_of_head _ e _ 's' 'p' rfl (pidLine_head pid) (by decide)

theorem connect_line_ne_pidLine (e : String) (pid : Nat) :
    "connect() failed: " ++ e ≠ pidLine pid :=
  append_ne_of_head _ e _ 'c' 'p' rfl (pidLine_head pid) (by decide)

theorem sendmsg_line_ne_pidLine (e : String) (pid : Nat) :
    "sendmsg() failed: " ++ e ≠ pidLine pid :=
  append_ne_of_head _ e _ 's' 'p' rfl (pidLine_head pid) (by decide)

theorem normal_line_ne_pidLine (pid : Nat) : "Doing normal exit" ≠ pidLine pid := by
  intro hEq
  have h1 := pidLine_head pid
  rw [← hEq] at h1
  exact absurd h1 (by decide)

theorem crash_line_ne_pidLine (pid : Nat) : "Crashing as requested." ≠ pidLine pid := by
  intro hEq
  have h1 := pidLine_head pid
  rw [← hEq] at h1
  exact absurd h1 (by decide)

theorem socket_line_ne_crash (e : String) :
    "socket() failed: " ++ e ≠ "Crashing as requested." :=
  append_ne_of_head _ e _ 's' 'C' rfl rfl (by decide)

theorem connect_line_ne_crash (e : String) :
    "connect() failed: " ++ e ≠ "Crashing as requested." :=
  append_ne_of_head _ e _ 'c' 'C' rfl rfl (by decide)

theorem sendmsg_line_ne_crash (e : String) :
    "sendmsg() failed: " ++ e ≠ "Crashing as requested." :=
  append_ne_of_head _ e _ 's' 'C' rfl rfl (by decide)

theorem SendPid_output_cases (path : String) (env : SysEnv) :
    (SendPid path env).output = [] ∨
    (SendPid path env).output = ["socket() failed: " ++ env.socketErr] ∨
    (SendPid path env).output = ["connect() failed: " ++ env.connectErr] ∨
    (SendPid path env).output = ["sendmsg() failed: " ++ env.sendErr] := by
  unfold SendPid
  by_cases h : env.socketFd = -1 <;> by_cases hc : env.connectOk = false <;>
    by_cases hs : env.sendOk = false <;> simp [h, hc, hs]

/-! ### Concrete environments used by witnesses and counterexamples -/

/-- An environment in which socket creation, connect and sendmsg all succeed. -/
def allOkEnv : SysEnv :=
  { socketFd := 3, connectOk := true, sendOk := true
    socketErr := "unused", connectErr := "unused", sendErr := "unused" }

/-- An environment in which `connect` fails (for example, the path does not exist). -/
def connectFailEnv : SysEnv :=
  { socketFd := 3, connectOk := false, sendOk := true
    socketErr := "unused", connectErr := "No such file or directory", sendErr := "unused" }

/-! ### Claim theorems -/

/-- C5: for the invocation with the single argument `--nocrash`, the process prints its
pid, prints the normal-exit diagnostic, and exits with status 0 without invoking the
recursive fault generator. -/
theorem nocrash_exits_zero (p0 : String) (pid : Nat) (env : SysEnv) :
    runMain [p0, "--nocrash"] pid env =
      { output := [pidLine pid, "Doing normal exit"], sent := [], closes := []
        outcome := Outcome.exited 0 } := by
  simp [runMain, PrepareBelow]

/-- C2: for `--sendpid <path>` where SendPid succeeds, control falls through the
mode-selection code: the process prints "Crashing as requested." and invokes the
recursive fault generator with starting depth 16, rather than exiting. -/
theorem sendpid_success_crashes (p0 path : String) (pid : Nat) (env : SysEnv)
    (hfd : env.socketFd ≠ -1) (hc : env.connectOk = true) (hs : env.sendOk = true) :
    runMain [p0, "--sendpid", path] pid env =
      { output := [pidLine pid, "Crashing as requested."], sent := [[0]]
        closes := [env.socketFd], outcome := Outcome.crashed 16 } := by
  simp [runMain, PrepareBelow, SendPid, hfd, hc, hs]

theorem sendpid_success_crashes_witness :
    runMain ["crasher", "--sendpid", "/tmp/crash-sock"] 42 allOkEnv =
      { output := [pidLine 42, "Crashing as requested."], sent := [[0]]
        closes := [3], outcome := Outcome.crashed 16 } :=
  sendpid_success_crashes "crasher" "/tmp/crash-sock" 42 allOkEnv (by decide) rfl rfl

/-- C1 counterexample: with `--sendpid` and a fully successful SendPid, the process does
not exit with status 0 — it prints "Crashing as requested." and enters the recursive
fault generator. -/
theorem sendpid_success_no_clean_exit :
    (runMain ["crasher", "--sendpid", "/tmp/sock"] 7 allOkEnv).outcome ≠ Outcome.exited 0 ∧
    "Crashing as requested." ∈ (runMain ["crasher", "--sendpid", "/tmp/sock"] 7 allOkEnv).output ∧
    (runMain ["crasher", "--sendpid", "/tmp/sock"] 7 allOkEnv).outcome = Outcome.crashed 16 := by
  refine ⟨?_, ?_, rfl⟩ <;> simp [runMain, PrepareBelow, SendPid, allOkEnv]

/-- C1 amended: for `--sendpid <path>` where SendPid succeeds (having transmitted exactly
one one-byte 0x00 datagram), the process falls through to the crash path: it prints
"Crashing as requested." and invokes the recursive fault generator with depth 16 instead
of exiting with status 0. -/
theorem sendpid_success_falls_through (p0 path : String) (pid : Nat) (env : SysEnv)
    (hfd : env.socketFd ≠ -1) (hc : env.connectOk = true) (hs : env.sendOk = true) :
    (runMain [p0, "--sendpid", path] pid env).outcome = Outcome.crashed 16 ∧
    "Crashing as requested." ∈ (runMain [p0, "--sendpid", path] pid env).output ∧
    (runMain [p0, "--sendpid", path] pid env).sent = [[0]] := by
  simp [runMain, PrepareBelow, SendPid, hfd, hc, hs]

theorem sendpid_success_falls_through_witness :
    (runMain ["crasher", "--sendpid", "/s"] 9 allOkEnv).outcome = Outcome.crashed 16 ∧
    "Crashing as requested." ∈ (runMain ["crasher", "--sendpid", "/s"] 9 allOkEnv).output ∧
    (runMain ["crasher", "--sendpid", "/s"] 9 allOkEnv).sent = [[0]] :=
  sendpid_success_falls_through "crasher" "/s" 9 allOkEnv (by decide) rfl rfl

/-- C3: for `--sendpid <path>` where SendPid fails (any of the three failure kinds), the
process exits with status 0; "Crashing as requested." is never printed and the recursive
fault generator is never invoked. -/
theorem sendpid_failure_exits_zero (p0 path : String) (pid : Nat) (env : SysEnv)
    (hfail : env.socketFd = -1 ∨ env.connectOk = false ∨ env.sendOk = false) :
    (runMain [p0, "--sendpid", path] pid env).outcome = Outcome.exited 0 ∧
    "Crashing as requested." ∉ (runMain [p0, "--sendpid", path] pid env).output := by
  by_cases hfd : env.socketFd = -1
  · simp [runMain, PrepareBelow, SendPid, hfd, crash_line_ne_pidLine,
      Ne.symm (socket_line_ne_crash env.socketErr)]
  · by_cases hc : env.connectOk = false
    · simp [runMain, PrepareBelow, SendPid, hfd, hc, crash_line_ne_pidLine,
        Ne.symm (connect_line_ne_crash env.connectErr)]
    · by_cases hs : env.sendOk = false
      · simp [runMain, PrepareBelow, SendPid, hfd, hc, hs, crash_line_ne_pidLine,
          Ne.symm (sendmsg_line_ne_crash env.sendErr)]
      · rcases hfail with h | h | h
        · exact absurd h hfd
        · exact absurd h hc
        · exact absurd h hs

theorem sendpid_failure_exits_zero_witness :
    (runMain ["crasher", "--sendpid", "/gone"] 11 connectFailEnv).outcome = Outcome.exited 0 ∧
    "Crashing as requested." ∉ (runMain ["crasher", "--sendpid", "/gone"] 11 connectFailEnv).output :=
  sendpid_failure_exits_zero "crasher" "/gone" 11 connectFailEnv (Or.inr (Or.inl rfl))

/-- C4: SendPid returns true iff socket creation, connect and send all succeed, in which
case exactly one one-byte datagram with value 0x00 is transmitted and nothing is printed;
on each of the three failure kinds it prints exactly one diagnostic line containing the
OS error description, returns false, and transmits nothing. -/
theorem SendPid_spec (path : String) (env : SysEnv) :
    ((SendPid path env).ok = true ↔
      env.socketFd ≠ -1 ∧ env.connectOk = true ∧ env.sendOk = true) ∧
    ((SendPid path env).ok = true →
      (SendPid path env).sent = [[0]] ∧ (SendPid path env).output = []) ∧
    (env.socketFd = -1 →
      (SendPid path env).ok = false ∧ (SendPid path env).sent = [] ∧
      (SendPid path env).output = ["socket() failed: " ++ env.socketErr]) ∧
    (env.socketFd ≠ -1 → env.connectOk = false →
      (SendPid path env).ok = false ∧ (SendPid path env).sent = [] ∧
      (SendPid path env).output = ["connect() failed: " ++ env.connectErr]) ∧
    (env.socketFd ≠ -1 → env.connectOk = true → env.sendOk = false →
      (SendPid path env).ok = false ∧ (SendPid path env).sent = [] ∧
      (SendPid path env).output = ["sendmsg() failed: " ++ env.sendErr]) := by
  by_cases hfd : env.socketFd = -1 <;> by_cases hc : env.connectOk = false <;>
    by_cases hs : env.sendOk = false <;>
    simp [SendPid, hfd, hc, hs]

theorem SendPid_spec_witness : (SendPid "/tmp/s" allOkEnv).ok = true :=
  (SendPid_spec "/tmp/s" allOkEnv).1.mpr (by refine ⟨by decide, rfl, rfl⟩)

/-- Helper: a list starting with the pid line whose tail does not contain it again has
the pid line first and exactly once. -/
theorem count_head_one (pl : String) (l : List String) (h : pl ∉ l) :
    (pl :: l).head? = some pl ∧ (pl :: l).count pl = 1 := by
  refine ⟨rfl, ?_⟩
  rw [List.count_cons_self, List.count_eq_zero.mpr h]

/-- C6: on every code path the pid line is emitted exactly once, before any other
diagnostic output. -/
theorem pid_line_first_and_once (argv : List String) (pid : Nat) (env : SysEnv) :
    (runMain argv pid env).output.head? = some (pidLine pid) ∧
    (runMain argv pid env).output.count (pidLine pid) = 1 := by
  by_cases h1 : argv.length = 2 ∧ argv.getD 1 "" = "--nocrash"
  · have hout : (runMain argv pid env).output = [pidLine pid, "Doing normal exit"] := by
      simp only [runMain, PrepareBelow, eq_true h1, if_true]
    rw [hout]
    exact count_head_one _ _ (by simp [Ne.symm (normal_line_ne_pidLine pid)])
  · by_cases h2 : argv.length = 3 ∧ argv.getD 1 "" = "--sendpid"
    · have hnotin : pidLine pid ∉ (SendPid (argv.getD 2 "") env).output := by
        rcases SendPid_output_cases (argv.getD 2 "") env with ho | ho | ho | ho <;> rw [ho] <;>
          simp [Ne.symm (socket_line_ne_pidLine env.socketErr pid),
            Ne.symm (connect_line_ne_pidLine env.connectErr pid),
            Ne.symm (sendmsg_line_ne_pidLine env.sendErr pid)]
      by_cases hok : (SendPid (argv.getD 2 "") env).ok = true
      · have hout : (runMain argv pid env).output =
            pidLine pid ::
              ((SendPid (argv.getD 2 "") env).output ++ ["Crashing as requested."]) := by
          simp only [runMain, PrepareBelow, eq_false h1, eq_true h2, eq_true hok,
            if_true, if_false, List.cons_append, List.nil_append]
        rw [hout]
        refine count_head_one _ _ ?_
        intro hmem
        rcases List.mem_append.mp hmem with hm | hm
        · exact hnotin hm
        · exact crash_line_ne_pidLine pid (List.mem_singleton.mp hm).symm
      · have hout : (runMain argv pid env).output =
            pidLine pid :: (SendPid (argv.getD 2 "") env).output := by
          simp only [runMain, PrepareBelow, eq_false h1, eq_true h2, eq_false hok,
            if_true, if_false, List.cons_append, List.nil_append]
        rw [hout]
        exact count_head_one _ _ hnotin
    · have hout : (runMain argv pid env).output = [pidLine pid, "Crashing as requested."] := by
        simp only [runMain, PrepareBelow, eq_false h1, eq_false h2, if_false]
      rw [hout]
      exact count_head_one _ _ (by simp [Ne.symm (crash_line_ne_pidLine pid)])

/-- C7: the socket descriptor, if successfully opened, is closed exactly once on every
exit path of SendPid, and is never closed when it was never opened. -/
theorem socket_closed_iff_opened (path : String) (env : SysEnv) :
    (env.socketFd ≠ -1 → (SendPid path env).closes = [env.socketFd]) ∧
    (env.socketFd = -1 → (SendPid path env).closes = []) := by
  by_cases hfd : env.socketFd = -1 <;> by_cases hc : env.connectOk = false <;>
    by_cases hs : env.sendOk = false <;> simp [SendPid, hfd, hc, hs]

theorem socket_closed_iff_opened_witness :
    (SendPid "/tmp/s" connectFailEnv).closes = [(3 : Int)] :=
  (socket_closed_iff_opened "/tmp/s" connectFailEnv).1 (by decide)

/-- Helper for C8: whenever the program reaches the recursive fault generator, the
starting depth is 16. -/
theorem runMain_crash_depth (a : List String) (p : Nat) (e : SysEnv) (d : Nat)
    (h : (runMain a p e).outcome = Outcome.crashed d) : d = 16 := by
  simp only [runMain] at h
  cases hres : (PrepareBelow a p e).result <;> rw [hres] at h <;> simp at h
  exact h.symm

/-- C8: the recursion depth of the crash mode is the fixed constant 16; any two
invocations that reach the recursive fault generator start it at the same depth, so the
fixed portion of the call stack has identical depth/shape across runs. -/
theorem recursion_depth_deterministic (a1 a2 : List String) (p1 p2 : Nat)
    (e1 e2 : SysEnv) (d1 d2 : Nat)
    (h1 : (runMain a1 p1 e1).outcome = Outcome.crashed d1)
    (h2 : (runMain a2 p2 e2).outcome = Outcome.crashed d2) :
    d1 = 16 ∧ d2 = 16 ∧ recbombFrames d1 = recbombFrames d2 ∧
    (recbombFrames 16).length = 16 := by
  have hd1 := runMain_crash_depth a1 p1 e1 d1 h1
  have hd2 := runMain_crash_depth a2 p2 e2 d2 h2
  subst hd1
  subst hd2
  exact ⟨rfl, rfl, rfl, by decide⟩

theorem recursion_depth_deterministic_witness :
    (16 : Nat) = 16 ∧ (16 : Nat) = 16 ∧ recbombFrames 16 = recbombFrames 16 ∧
    (recbombFrames 16).length = 16 :=
  recursion_depth_deterministic ["crasher"] ["crasher"] 1 2 allOkEnv connectFailEnv 16 16
    (by decide) (by decide)

/-- C9: an invocation whose arguments match neither mode exactly — `--sendpid` without
exactly one following argument, `--nocrash` with extra arguments, or an unrecognized
first argument — falls through to the crash path. -/
theorem unmatched_args_crash (argv : List String) (pid : Nat) (env : SysEnv)
    (h : (argv.getD 1 "" = "--sendpid" ∧ argv.length ≠ 3) ∨
         (argv.getD 1 "" = "--nocrash" ∧ argv.length ≠ 2) ∨
         (argv.getD 1 "" ≠ "--nocrash" ∧ argv.getD 1 "" ≠ "--sendpid")) :
    (runMain argv pid env).outcome = Outcome.crashed 16 ∧
    "Crashing as requested." ∈ (runMain argv pid env).output := by
  have hnc : ¬(argv.length = 2 ∧ argv.getD 1 "" = "--nocrash") := by
    rcases h with ⟨ha, hb⟩ | ⟨ha, hb⟩ | ⟨ha, hb⟩
    · rintro ⟨hl, hv⟩
      rw [ha] at hv
      exact absurd hv (by decide)
    · rintro ⟨hl, hv⟩
      exact hb hl
    · rintro ⟨hl, hv⟩
      exact ha hv
  have hsp : ¬(argv.length = 3 ∧ argv.getD 1 "" = "--sendpid") := by
    rcases h with ⟨ha, hb⟩ | ⟨ha, hb⟩ | ⟨ha, hb⟩
    · rintro ⟨hl, hv⟩
      exact hb hl
    · rintro ⟨hl, hv⟩
      rw [ha] at hv
      exact absurd hv (by decide)
    · rintro ⟨hl, hv⟩
      exact hb hv
  simp only [runMain, PrepareBelow, eq_false hnc, eq_false hsp, if_false]
  simp

theorem unmatched_args_crash_witness :
    (runMain ["crasher", "--sendpid"] 5 allOkEnv).outcome = Outcome.crashed 16 ∧
    "Crashing as requested." ∈ (runMain ["crasher", "--sendpid"] 5 allOkEnv).output :=
  unmatched_args_crash ["crasher", "--sendpid"] 5 allOkEnv (Or.inl ⟨rfl, by decide⟩)

/-- Helper: `strncpy` writes exactly `n` bytes. -/
theorem strncpyBytes_length (src : List Nat) (n : Nat) :
    (strncpyBytes src n).length = n := by
  induction src generalizing n with
  | nil => cases n <;> simp [strncpyBytes]
  | cons b rest ih =>
    cases n with
    | zero => simp [strncpyBytes]
    | succ m => by_cases hb : b = 0 <;> simp [strncpyBytes, hb, ih]

/-- Helper: the byte of the zero-initialized buffer beyond the 107 bytes `strncpy`
writes is the single final zero byte. -/
theorem replicate_drop_final : (List.replicate sunPathSize (0 : Nat)).drop (sunPathSize - 1) = [0] := by
  decide

/-- Helper: the `sun_path` buffer is the 107 copied bytes followed by the zero byte the
initialization left in place. -/
theorem sunPath_eq (src : List Nat) :
    sunPath src = strncpyBytes src (sunPathSize - 1) ++ [0] := by
  rw [sunPath, strncpyInto, replicate_drop_final]

/-- C10: for every socket path, the path copied into the address structure is truncated
to at most `sizeof(sun_path) - 1 = 107` bytes, the buffer stays exactly
`sizeof(sun_path) = 108` bytes (nothing is written past it), and its last byte is the
zero left by the zero-initialization, so it is always null-terminated. -/
theorem sunPath_safe (path : String) (env : SysEnv) (a : List Nat)
    (h : (SendPid path env).addr = some a) :
    a.length = sunPathSize ∧ a.getLast? = some 0 ∧
    (strncpyBytes (strBytes path) (sunPathSize - 1)).length = sunPathSize - 1 := by
  have ha : a = sunPath (strBytes path) := by
    by_cases hfd : env.socketFd = -1 <;> by_cases hc : env.connectOk = false <;>
      by_cases hs : env.sendOk = false <;>
      simp [SendPid, hfd, hc, hs] at h <;> exact h.symm
  subst ha
  refine ⟨?_, ?_, ?_⟩
  · rw [sunPath_eq]
    simp [strncpyBytes_length, sunPathSize]
  · rw [sunPath_eq]
    simp [List.getLast?_concat]
  · simp [strncpyBytes_length]

theorem sunPath_safe_witness :
    (sunPath (strBytes "/run/crash-sock")).length = sunPathSize :=
  (sunPath_safe "/run/crash-sock" allOkEnv (sunPath (strBytes "/run/crash-sock"))
    (by simp [SendPid, allOkEnv])).1
